import Mathlib

/-!
Verification development for the ev3dev device-driver core:
the discovery functions and the attribute-handle cache of `src/driver.rs`,
and the binary-data decoding of `src/sensors/color_sensor.rs`.

The filesystem is modelled as an explicit environment `FS`; stateful code
(the shared attribute cache behind `Arc<RwLock<...>>`, the shared option
cells of `ColorSensor`) is modelled by explicit state passing.  A Rust
`panic!` is modelled as a distinguished outcome, separate from the typed
`Ev3Error` results.
-/

set_option autoImplicit false

namespace Ev3

/-- Model of the filesystem environment the library runs against.
`pathExists` drives attribute resolution, `content` is a textual attribute
read (`None` models an I/O failure), `rawData` is an undecoded byte read
(bytes as `Nat`, values below 256), and `dirs` lists a directory
(`None` models a `read_dir` failure). -/
structure FS where
  pathExists : String → Bool
  content : String → Option String
  rawData : String → Option (List Nat)
  dirs : String → Option (List String)

/-- The driver path `/sys/class/` (src/driver.rs, `DRIVER_PATH`, default
build without the override feature). -/
def DRIVER_PATH : String := "/sys/class/"

/-- Path of the attribute file `attribute_name` of device `name` in class
`class_name`: `/sys/class/{class_name}/{name}/{attribute_name}`. -/
def sysClassPath (class_name name attribute_name : String) : String :=
  DRIVER_PATH ++ class_name ++ "/" ++ name ++ "/" ++ attribute_name

/-- Modelled from the spec: `Attribute` lives in the crate's `core` module,
which is not part of the sources at hand.  Per the spec it is "bound at
construction to a specific filesystem path" with immutable identity and
reference (clone) semantics, so the model is just the resolved path. -/
structure Attribute where
  path : String
deriving DecidableEq

/-- Modelled from the spec: `Attribute::from_sys_class` (missing `core`
module) resolves `(class_name, name, attribute_name)` to its filesystem
path and fails when "the path does not exist / is not accessible". -/
def Attribute.from_sys_class (fs : FS) (class_name name attribute_name : String) :
    Option Attribute :=
  if fs.pathExists (sysClassPath class_name name attribute_name) then
    some ⟨sysClassPath class_name name attribute_name⟩
  else
    none

/-- Modelled from the spec: the error kinds of `Ev3Error` (missing `core`
module) that the sources at hand construct or that the spec names:
`NotConnected`/`MultipleMatches` exactly as built in src/driver.rs, plus
`Io` and `Parse` for propagated filesystem/parsing failures. -/
inductive Ev3Error where
  | NotConnected (device : String) (port : Option String)
  | MultipleMatches (device : String) (ports : List String)
  | Io (msg : String)
  | Parse (msg : String)
deriving DecidableEq

/-- Rust's `format!` with the `{:?}` debug formatter applied to a slice of
strings, as used for the `device` field of the discovery errors
(src/driver.rs lines 80, 94, 101); escaping inside the names is not
modelled. -/
def debugFormatStrList (l : List String) : String :=
  "[" ++ String.intercalate ", " (l.map (fun s => "\"" ++ s ++ "\"")) ++ "]"

/-- The `Driver` struct (src/driver.rs lines 34-39).  The Rust field
`attributes : Arc<RwLock<HashMap<String, Attribute>>>` is shared by all
clones of the driver, so a clone is modelled as the very same state value;
the map is modelled as an association list with unique keys. -/
structure Driver where
  class_name : String
  name : String
  attributes : List (String × Attribute)
deriving DecidableEq

/-- `Driver::new` (src/driver.rs lines 44-50): pure construction, empty
cache. -/
def Driver.new (class_name name : String) : Driver :=
  { class_name := class_name, name := name, attributes := [] }

/-- Lookup in the attribute map (model of `HashMap::get`). -/
def lookupAttr : List (String × Attribute) → String → Option Attribute
  | [], _ => none
  | (k, v) :: rest, a => if k = a then some v else lookupAttr rest a

/-- `Driver::get_attribute` (src/driver.rs lines 132-155): return the
cached handle when present; otherwise resolve via
`Attribute::from_sys_class`, insert the result into the shared map and
return it; on resolution failure the Rust code panics — modelled as
`Except.error` carrying the panic message, with the cache state returned
unchanged (the insert never executes). -/
def Driver.get_attribute (fs : FS) (d : Driver) (attribute_name : String) :
    Except String Attribute × Driver :=
  match lookupAttr d.attributes attribute_name with
  | some attr => (Except.ok attr, d)
  | none =>
    match Attribute.from_sys_class fs d.class_name d.name attribute_name with
    | some resolved =>
      (Except.ok resolved,
        { d with attributes := (attribute_name, resolved) :: d.attributes })
    | none =>
      (Except.error ("Error while accessing " ++ d.class_name ++ ", " ++ d.name
          ++ ", " ++ attribute_name ++ " Internal error in the attribute map"),
        d)

/-- Run a sequence of `get_attribute` calls against a fixed filesystem,
threading the shared cache state (results are discarded; a panicking call
leaves the shared map untouched and later calls still see it). -/
def runCalls (fs : FS) (d : Driver) : List String → Driver
  | [] => d
  | a :: rest => runCalls fs (Driver.get_attribute fs d a).2 rest

/-- Modelled from the spec: `Attribute::get` (missing `core` module) reads
the file content and trims the trailing newline before parsing. -/
def trimTrailingNewline (s : String) : String :=
  if s.data.getLast? = some '\n' then String.mk s.data.dropLast else s

/-- Modelled from the spec: resolve an attribute of `(class_name, name)`
and read its content as a string (`Attribute::from_sys_class` followed by
`get::<String>`, which cannot fail on the parsing side); `none` is any
resolution or I/O failure, which src/driver.rs propagates with `?`. -/
def attrReadString (fs : FS) (class_name name attribute_name : String) :
    Option String :=
  match Attribute.from_sys_class fs class_name name attribute_name with
  | none => none
  | some attr => (fs.content attr.path).map trimTrailingNewline

/-- Rust `str::contains`: `needle` occurs as a contiguous substring of
`hay`. -/
def strContainsB (hay needle : String) : Bool :=
  decide (needle.toList <:+: hay.toList)

/-- The scan loop of `Driver::find_names_by_driver` (src/driver.rs lines
114-125): for each directory entry read its `driver_name` attribute
(errors propagate immediately) and collect, in listing order, the entries
whose driver name is in `driver_name_vec`. -/
def findNamesLoop (fs : FS) (class_name : String) (driver_name_vec : List String) :
    List String → Except Ev3Error (List String)
  | [] => Except.ok []
  | name :: rest =>
    match attrReadString fs class_name name "driver_name" with
    | none => Except.error (Ev3Error.Io ("driver_name of " ++ name))
    | some driver_name =>
      if driver_name_vec.any (fun n => driver_name = n) then
        (findNamesLoop fs class_name driver_name_vec rest).map
          (fun found => name :: found)
      else
        findNamesLoop fs class_name driver_name_vec rest

/-- `Driver::find_names_by_driver` (src/driver.rs lines 108-128): list the
class directory and collect every entry whose `driver_name` is in
`driver_name_vec`. -/
def find_names_by_driver (fs : FS) (class_name : String)
    (driver_name_vec : List String) : Except Ev3Error (List String) :=
  match fs.dirs (DRIVER_PATH ++ class_name) with
  | none => Except.error (Ev3Error.Io ("read_dir " ++ DRIVER_PATH ++ class_name))
  | some paths => findNamesLoop fs class_name driver_name_vec paths

/-- `Driver::find_name_by_driver` (src/driver.rs lines 89-105): run
`find_names_by_driver`, then apply the zero/one/many policy (the `pop` of
a one-element vector is its unique element; its `expect` is dead code). -/
def find_name_by_driver (fs : FS) (class_name : String)
    (driver_name_vec : List String) : Except Ev3Error String :=
  match find_names_by_driver fs class_name driver_name_vec with
  | Except.error e => Except.error e
  | Except.ok names =>
    match names with
    | [] => Except.error
        (Ev3Error.NotConnected (debugFormatStrList driver_name_vec) none)
    | [n] => Except.ok n
    | _ => Except.error
        (Ev3Error.MultipleMatches (debugFormatStrList driver_name_vec) names)

/-- The scan loop of `Driver::find_name_by_port_and_driver`
(src/driver.rs lines 64-77): for each entry read `address` (errors
propagate); when it contains the port address, read `driver_name` (errors
propagate) and return the entry if the driver name is accepted; otherwise
keep scanning.  An exhausted scan is `NotConnected` with the port
recorded. -/
def findPortLoop (fs : FS) (class_name port_address : String)
    (driver_name_vec : List String) : List String → Except Ev3Error String
  | [] => Except.error
      (Ev3Error.NotConnected (debugFormatStrList driver_name_vec)
        (some port_address))
  | name :: rest =>
    match attrReadString fs class_name name "address" with
    | none => Except.error (Ev3Error.Io ("address of " ++ name))
    | some address =>
      if strContainsB address port_address then
        match attrReadString fs class_name name "driver_name" with
        | none => Except.error (Ev3Error.Io ("driver_name of " ++ name))
        | some driver_name =>
          if driver_name_vec.any (fun n => driver_name = n) then
            Except.ok name
          else
            findPortLoop fs class_name port_address driver_name_vec rest
      else
        findPortLoop fs class_name port_address driver_name_vec rest

/-- `Driver::find_name_by_port_and_driver` (src/driver.rs lines 55-83);
`port_address` is the value of `port.address()`, computed once at entry
(line 60). -/
def find_name_by_port_and_driver (fs : FS) (class_name port_address : String)
    (driver_name_vec : List String) : Except Ev3Error String :=
  match fs.dirs (DRIVER_PATH ++ class_name) with
  | none => Except.error (Ev3Error.Io ("read_dir " ++ DRIVER_PATH ++ class_name))
  | some paths => findPortLoop fs class_name port_address driver_name_vec paths

/-- Whether a directory entry satisfies both conditions of the
port-and-driver scan: its `address` attribute reads successfully and
contains the port address as a substring, and its `driver_name` attribute
reads successfully with a value in `driver_name_vec`. -/
def portDriverMatchB (fs : FS) (class_name port_address : String)
    (driver_name_vec : List String) (name : String) : Bool :=
  match attrReadString fs class_name name "address" with
  | none => false
  | some address =>
    strContainsB address port_address &&
      match attrReadString fs class_name name "driver_name" with
      | none => false
      | some driver_name => driver_name_vec.any (fun n => driver_name = n)

/-- All attribute reads the port-and-driver scan performs on `name`
succeed: the `address` read succeeds, and whenever the address contains
the port address the `driver_name` read succeeds as well. -/
def portScanReadsOk (fs : FS) (class_name port_address name : String) : Prop :=
  (attrReadString fs class_name name "address").isSome ∧
    (∀ a, attrReadString fs class_name name "address" = some a →
      strContainsB a port_address = true →
      (attrReadString fs class_name name "driver_name").isSome)

/-- The collector of the spec-worded `find_instance_by_driver`: walk the
class directory accumulating, in listing order, every entry whose
`driver_name` attribute value is in the identifier list. -/
def specCollectAux (fs : FS) (class_name : String) (driver_ids : List String)
    (acc : List String) : List String → Except Ev3Error (List String)
  | [] => Except.ok acc
  | name :: rest =>
    match attrReadString fs class_name name "driver_name" with
    | none => Except.error (Ev3Error.Io ("driver_name of " ++ name))
    | some driver_name =>
      if driver_ids.any (fun n => driver_name = n) then
        specCollectAux fs class_name driver_ids (acc ++ [name]) rest
      else
        specCollectAux fs class_name driver_ids acc rest

/-- A self-contained definition following the spec's words for
`find_instance_by_driver`: collect all entries whose `driver_name` is in
`driver_ids` (its own scan, not the `find_names_by_driver` primitive),
then apply the zero/one/many policy to exactly that collection.  Stated
for comparison against the source's `find_name_by_driver`. -/
def find_instance_by_driver_spec (fs : FS) (class_name : String)
    (driver_ids : List String) : Except Ev3Error String :=
  match fs.dirs (DRIVER_PATH ++ class_name) with
  | none => Except.error (Ev3Error.Io ("read_dir " ++ DRIVER_PATH ++ class_name))
  | some entries =>
    match specCollectAux fs class_name driver_ids [] entries with
    | Except.error e => Except.error e
    | Except.ok instances =>
      match instances with
      | [] => Except.error
          (Ev3Error.NotConnected (debugFormatStrList driver_ids) none)
      | [n] => Except.ok n
      | _ => Except.error
          (Ev3Error.MultipleMatches (debugFormatStrList driver_ids) instances)

/-- Outcome of a fallible Rust computation that may also `panic!`:
`ok` a normal return, `err` a typed `Ev3Error` (a Rust `Err` propagated
with `?`), `panicked` a panic with its message. -/
inductive Outcome (α : Type) where
  | ok (val : α)
  | err (e : Ev3Error)
  | panicked (msg : String)
deriving DecidableEq

/-- `BinDataFormat` (src/sensors/color_sensor.rs lines 8-24). -/
inductive BinDataFormat where
  | U8
  | S8
  | U16
  | S16
  | S16Be
  | S32
  | Float
deriving DecidableEq

/-- `BinDataFormat::size` (src/sensors/color_sensor.rs lines 27-37). -/
def BinDataFormat.size : BinDataFormat → Nat
  | BinDataFormat.U8 => 1
  | BinDataFormat.S8 => 1
  | BinDataFormat.U16 => 2
  | BinDataFormat.S16 => 2
  | BinDataFormat.S16Be => 2
  | BinDataFormat.S32 => 4
  | BinDataFormat.Float => 4

/-- `FromStr for BinDataFormat` (src/sensors/color_sensor.rs lines 40-55):
the seven known tokens parse to their variants; any other string hits
`panic!("Invalid bin data format")` — the error arm of the `Result` is
never used. -/
def BinDataFormat.from_str (s : String) : Outcome BinDataFormat :=
  match s with
  | "u8" => Outcome.ok BinDataFormat.U8
  | "s8" => Outcome.ok BinDataFormat.S8
  | "u16" => Outcome.ok BinDataFormat.U16
  | "s16" => Outcome.ok BinDataFormat.S16
  | "s16_be" => Outcome.ok BinDataFormat.S16Be
  | "s32" => Outcome.ok BinDataFormat.S32
  | "float" => Outcome.ok BinDataFormat.Float
  | _ => Outcome.panicked "Invalid bin data format"

/-- Rust `u8::from_str` on the trimmed attribute content: a non-empty
digit string with value below 256 (sign prefixes are not modelled). -/
def parseU8 (s : String) : Option Nat :=
  if s.length > 0 && s.toList.all Char.isDigit then
    match s.toNat? with
    | some n => if n < 256 then some n else none
    | none => none
  else none

/-- Modelled from the spec: `Attribute::get::<u8>` (missing `core`
module) — read the content, trim the trailing newline, parse as `u8`;
an unreadable file is an I/O error and unparsable content a `Parse`
error. -/
def attrGetU8 (fs : FS) (attr : Attribute) : Except Ev3Error Nat :=
  match fs.content attr.path with
  | none => Except.error (Ev3Error.Io ("read of " ++ attr.path))
  | some c =>
    match parseU8 (trimTrailingNewline c) with
    | none => Except.error (Ev3Error.Parse ("u8 content of " ++ attr.path))
    | some n => Except.ok n

/-- Modelled from the spec: `Attribute::get::<BinDataFormat>` — read and
trim the content, then parse it with the source's `FromStr` instance,
whose panic on an unknown token escapes the typed-error channel. -/
def attrGetBinDataFormat (fs : FS) (attr : Attribute) : Outcome BinDataFormat :=
  match fs.content attr.path with
  | none => Outcome.err (Ev3Error.Io ("read of " ++ attr.path))
  | some c => BinDataFormat.from_str (trimTrailingNewline c)

/-- The `ColorSensor` struct (src/sensors/color_sensor.rs lines 60-65).
The fields `num_values : Arc<RwLock<Option<u8>>>` and
`bin_format : Arc<RwLock<Option<BinDataFormat>>>` are shared by all
clones, so a clone is modelled as the very same state value. -/
structure ColorSensor where
  driver : Driver
  num_values : Option Nat
  bin_format : Option BinDataFormat
deriving DecidableEq

/-- `ColorSensor::new` (src/sensors/color_sensor.rs lines 68-70): both
option cells start empty. -/
def ColorSensor.new (driver : Driver) : ColorSensor :=
  { driver := driver, num_values := none, bin_format := none }

/-- Rust `chunks_exact(2)`: split into consecutive pairs, dropping a
trailing element that does not fill a pair. -/
def chunksExact2 : List Nat → List (Nat × Nat)
  | a :: b :: rest => (a, b) :: chunksExact2 rest
  | _ => []

/-- `i16::from_ne_bytes([b0, b1])` on the library's target platform
(the EV3's ARM processor is little-endian, so native byte order is
little-endian): `b0` is the low byte, and values at or above `2^15`
wrap to negative. -/
def i16_from_ne_bytes (b0 b1 : Nat) : Int :=
  let v := (b0 % 256) + 256 * (b1 % 256)
  if v < 32768 then (v : Int) else (v : Int) - 65536

/-- `ColorSensor::get_bin_data` (src/sensors/color_sensor.rs lines
156-197), with the shared cells and the driver cache threaded as state:

1. obtain `num_values` from the shared cell, or read the `num_values`
   attribute (`get_attribute` may panic on resolution failure; the `u8`
   parse may fail with a typed error) and fill the cell;
2. likewise for `bin_format` via the `bin_data_format` attribute, parsed
   with `BinDataFormat::from_str`;
3. panic unless the format is `S16`;
4. read the raw bytes of the `bin_data` attribute;
5. slice the first 8 bytes — a Rust index panic when fewer are present —
   decode them as native-endian 16-bit words, and return the first
   three. -/
def ColorSensor.get_bin_data (fs : FS) (s : ColorSensor) :
    Outcome (Int × Int × Int) × ColorSensor :=
  let step1 : Outcome Nat × ColorSensor :=
    match s.num_values with
    | some num => (Outcome.ok num, s)
    | none =>
      match Driver.get_attribute fs s.driver "num_values" with
      | (Except.error msg, d1) => (Outcome.panicked msg, { s with driver := d1 })
      | (Except.ok attr, d1) =>
        match attrGetU8 fs attr with
        | Except.error e => (Outcome.err e, { s with driver := d1 })
        | Except.ok num =>
          (Outcome.ok num, { s with driver := d1, num_values := some num })
  match step1 with
  | (Outcome.err e, s1) => (Outcome.err e, s1)
  | (Outcome.panicked m, s1) => (Outcome.panicked m, s1)
  | (Outcome.ok _num, s1) =>
    let step2 : Outcome BinDataFormat × ColorSensor :=
      match s1.bin_format with
      | some fmt => (Outcome.ok fmt, s1)
      | none =>
        match Driver.get_attribute fs s1.driver "bin_data_format" with
        | (Except.error msg, d2) =>
          (Outcome.panicked msg, { s1 with driver := d2 })
        | (Except.ok attr, d2) =>
          match attrGetBinDataFormat fs attr with
          | Outcome.err e => (Outcome.err e, { s1 with driver := d2 })
          | Outcome.panicked m => (Outcome.panicked m, { s1 with driver := d2 })
          | Outcome.ok fmt =>
            (Outcome.ok fmt, { s1 with driver := d2, bin_format := some fmt })
    match step2 with
    | (Outcome.err e, s2) => (Outcome.err e, s2)
    | (Outcome.panicked m, s2) => (Outcome.panicked m, s2)
    | (Outcome.ok fmt, s2) =>
      if fmt = BinDataFormat.S16 then
        match Driver.get_attribute fs s2.driver "bin_data" with
        | (Except.error msg, d3) => (Outcome.panicked msg, { s2 with driver := d3 })
        | (Except.ok attr, d3) =>
          let s3 := { s2 with driver := d3 }
          match fs.rawData attr.path with
          | none => (Outcome.err (Ev3Error.Io ("raw read of " ++ attr.path)), s3)
          | some data =>
            if data.length < 8 then
              (Outcome.panicked
                ("range end index 8 out of range for slice of length "
                  ++ toString data.length), s3)
            else
              let colors := (chunksExact2 (data.take 8)).map
                (fun p => i16_from_ne_bytes p.1 p.2)
              (Outcome.ok (colors.getD 0 0, colors.getD 1 0, colors.getD 2 0), s3)
      else
        (Outcome.panicked "get_bin_data is not supported for this color sensor", s2)

/-- Example filesystem: every path resolves, every textual attribute reads
as a fixed device tree with two color sensors, raw reads yield an 8-byte
block. -/
def exFS : FS :=
  { pathExists := fun _ => true
  , content := fun p =>
      if p = "/sys/class/lego-sensor/sensor0/driver_name" then some "lego-ev3-color"
      else if p = "/sys/class/lego-sensor/sensor0/address" then some "ev3-ports:in1"
      else if p = "/sys/class/lego-sensor/sensor1/driver_name" then some "lego-ev3-color"
      else if p = "/sys/class/lego-sensor/sensor1/address" then some "ev3-ports:in2"
      else some ""
  , rawData := fun _ => some [1, 2, 3, 4, 5, 6, 7, 8]
  , dirs := fun p =>
      if p = "/sys/class/lego-sensor" then some ["sensor0", "sensor1"] else none }

/-- Example filesystem on which nothing resolves and every read fails. -/
def emptyFS : FS :=
  { pathExists := fun _ => false
  , content := fun _ => none
  , rawData := fun _ => none
  , dirs := fun _ => none }

/-- Example driver for a color sensor device. -/
def exDriver : Driver := Driver.new "lego-sensor" "sensor0"

/-- `exDriver` after its `mode` attribute has been resolved and cached. -/
def exDriverCached : Driver :=
  { class_name := "lego-sensor", name := "sensor0"
  , attributes := [("mode", ⟨"/sys/class/lego-sensor/sensor0/mode"⟩)] }

/-- Example color sensor whose shared cells are already populated with
3 values in `s16` format. -/
def exSensorS16 : ColorSensor :=
  { driver := exDriver, num_values := some 3, bin_format := some BinDataFormat.S16 }

/-- Example color sensor whose shared cells report the `u8` format. -/
def exSensorU8 : ColorSensor :=
  { driver := exDriver, num_values := some 1, bin_format := some BinDataFormat.U8 }

/-- `exFS` after a device-side change: every textual attribute (including
`num_values` and `bin_data_format`) now reads differently; resolution and
raw reads are untouched. -/
def exFSChanged : FS :=
  { exFS with content := fun _ => some "u8" }

/-- `exFS` with a raw byte block of only 3 bytes behind every attribute. -/
def shortFS : FS :=
  { exFS with rawData := fun _ => some [9, 9, 9] }

/-- `exDriver` after its `bin_data` attribute has been resolved and
cached. -/
def exDriverBinData : Driver :=
  { class_name := "lego-sensor", name := "sensor0"
  , attributes := [("bin_data", ⟨"/sys/class/lego-sensor/sensor0/bin_data"⟩)] }

/-! ### Properties of the attribute cache (`Driver::get_attribute`) -/

theorem lookupAttr_of_get_attribute_ok (fs : FS) (d : Driver) (A : String)
    (attr : Attribute) (d' : Driver)
    (h : Driver.get_attribute fs d A = (Except.ok attr, d')) :
    lookupAttr d'.attributes A = some attr := by
  unfold Driver.get_attribute at h
  cases hl : lookupAttr d.attributes A with
  | some a =>
    rw [hl] at h
    cases h
    exact hl
  | none =>
    rw [hl] at h
    cases hr : Attribute.from_sys_class fs d.class_name d.name A with
    | some r =>
      rw [hr] at h
      cases h
      simp [lookupAttr]
    | none =>
      rw [hr] at h
      cases h

theorem lookupAttr_none_not_mem (l : List (String × Attribute)) (B : String)
    (h : lookupAttr l B = none) : B ∉ l.map Prod.fst := by
  induction l with
  | nil => simp
  | cons kv rest ih =>
    simp only [lookupAttr] at h
    by_cases hk : kv.1 = B
    · rw [if_pos hk] at h
      cases h
    · rw [if_neg hk] at h
      simp only [List.map_cons, List.mem_cons]
      intro hmem
      cases hmem with
      | inl he => exact hk he.symm
      | inr hm => exact ih h hm

theorem get_attribute_preserves_lookup (fs : FS) (d : Driver) (A B : String)
    (attr : Attribute) (h : lookupAttr d.attributes A = some attr) :
    lookupAttr (Driver.get_attribute fs d B).2.attributes A = some attr := by
  unfold Driver.get_attribute
  cases hb : lookupAttr d.attributes B with
  | some a => exact h
  | none =>
    cases hr : Attribute.from_sys_class fs d.class_name d.name B with
    | some r =>
      simp only [lookupAttr]
      by_cases he : B = A
      · rw [he] at hb
        rw [hb] at h
        cases h
      · rw [if_neg he]
        exact h
    | none => exact h

theorem get_attribute_preserves_nodup (fs : FS) (d : Driver) (B : String)
    (h : (d.attributes.map Prod.fst).Nodup) :
    ((Driver.get_attribute fs d B).2.attributes.map Prod.fst).Nodup := by
  unfold Driver.get_attribute
  cases hb : lookupAttr d.attributes B with
  | some a => exact h
  | none =>
    cases hr : Attribute.from_sys_class fs d.class_name d.name B with
    | some r =>
      simp only [List.map_cons, List.nodup_cons]
      exact ⟨lookupAttr_none_not_mem d.attributes B hb, h⟩
    | none => exact h

theorem runCalls_append (fs : FS) (d : Driver) (xs ys : List String) :
    runCalls fs d (xs ++ ys) = runCalls fs (runCalls fs d xs) ys := by
  induction xs generalizing d with
  | nil => rfl
  | cons a rest ih =>
    simp only [List.cons_append, runCalls]
    exact ih _

theorem runCalls_preserves_lookup (fs : FS) (d : Driver) (calls : List String)
    (A : String) (attr : Attribute) (h : lookupAttr d.attributes A = some attr) :
    lookupAttr (runCalls fs d calls).attributes A = some attr := by
  induction calls generalizing d with
  | nil => exact h
  | cons a rest ih =>
    exact ih _ (get_attribute_preserves_lookup fs d A a attr h)

theorem runCalls_preserves_nodup (fs : FS) (d : Driver) (calls : List String)
    (h : (d.attributes.map Prod.fst).Nodup) :
    ((runCalls fs d calls).attributes.map Prod.fst).Nodup := by
  induction calls generalizing d with
  | nil => exact h
  | cons a rest ih =>
    exact ih _ (get_attribute_preserves_nodup fs d a h)

theorem get_attribute_cached_hit (fs : FS) (d : Driver) (A : String)
    (attr : Attribute) (h : lookupAttr d.attributes A = some attr) :
    Driver.get_attribute fs d A = (Except.ok attr, d) := by
  unfold Driver.get_attribute
  rw [h]

/-- C1: once `get_attribute(A)` has succeeded, every later
`get_attribute(A)` — after an arbitrary further call sequence, on the same
shared cache state that the driver and all its clones see — returns the
very same handle, bound to the identical resolved path, and leaves the
state untouched.  The later call's filesystem `fsNow` (and the filesystem
`fsMid` of the intervening calls) is arbitrary and unrelated to `fs`, so
the result provably involves no further filesystem resolution: the cached
entry is served from the shared map. -/
theorem get_attribute_cache_coherence (fs fsMid fsNow : FS) (d : Driver)
    (A : String) (attr : Attribute) (d' : Driver) (calls : List String)
    (h : Driver.get_attribute fs d A = (Except.ok attr, d')) :
    Driver.get_attribute fsNow (runCalls fsMid d' calls) A
      = (Except.ok attr, runCalls fsMid d' calls) := by
  have h1 : lookupAttr d'.attributes A = some attr :=
    lookupAttr_of_get_attribute_ok fs d A attr d' h
  have h2 : lookupAttr (runCalls fsMid d' calls).attributes A = some attr :=
    runCalls_preserves_lookup fsMid d' calls A attr h1
  exact get_attribute_cached_hit fsNow _ A attr h2

/-- Witness for C1: on a concrete filesystem, resolving `mode` once caches
it; afterwards even a filesystem on which nothing resolves returns the
identical handle. -/
theorem get_attribute_cache_coherence_witness :
    Driver.get_attribute exFS exDriver "mode"
        = (Except.ok ⟨"/sys/class/lego-sensor/sensor0/mode"⟩, exDriverCached) ∧
      Driver.get_attribute emptyFS (runCalls emptyFS exDriverCached ["speed_sp"]) "mode"
        = (Except.ok ⟨"/sys/class/lego-sensor/sensor0/mode"⟩,
            runCalls emptyFS exDriverCached ["speed_sp"]) :=
  ⟨by rfl,
    get_attribute_cache_coherence exFS emptyFS emptyFS exDriver "mode"
      ⟨"/sys/class/lego-sensor/sensor0/mode"⟩ exDriverCached ["speed_sp"] (by rfl)⟩

/-- C2: over any sequence of `get_attribute` calls starting from
`Driver::new`, the cache keeps at most one entry per attribute name (its
key list stays duplicate-free), and a cached entry is never removed or
replaced: once an attribute name maps to a handle after some call
sequence, it still maps to that same handle after any further calls — the
only per-name transition is from absent to cached, never back. -/
theorem attribute_cache_invariant (fs : FS) (class_name name : String)
    (calls more : List String) (A : String) (attr : Attribute)
    (h : lookupAttr (runCalls fs (Driver.new class_name name) calls).attributes A
        = some attr) :
    ((runCalls fs (Driver.new class_name name) (calls ++ more)).attributes.map
        Prod.fst).Nodup ∧
      lookupAttr (runCalls fs (Driver.new class_name name)
          (calls ++ more)).attributes A = some attr := by
  rw [runCalls_append]
  refine ⟨?_, ?_⟩
  · exact runCalls_preserves_nodup fs _ more
      (runCalls_preserves_nodup fs (Driver.new class_name name) calls (by simp [Driver.new]))
  · exact runCalls_preserves_lookup fs _ more A attr h

/-- Witness for C2: after caching `mode`, two further calls leave the key
list duplicate-free and the `mode` entry intact. -/
theorem attribute_cache_invariant_witness :
    lookupAttr (runCalls exFS (Driver.new "lego-sensor" "sensor0") ["mode"]).attributes
        "mode" = some ⟨"/sys/class/lego-sensor/sensor0/mode"⟩ ∧
      (((runCalls exFS (Driver.new "lego-sensor" "sensor0")
          (["mode"] ++ ["mode", "address"])).attributes.map Prod.fst).Nodup ∧
        lookupAttr (runCalls exFS (Driver.new "lego-sensor" "sensor0")
            (["mode"] ++ ["mode", "address"])).attributes "mode"
          = some ⟨"/sys/class/lego-sensor/sensor0/mode"⟩) :=
  ⟨by rfl,
    attribute_cache_invariant exFS "lego-sensor" "sensor0" ["mode"]
      ["mode", "address"] "mode" ⟨"/sys/class/lego-sensor/sensor0/mode"⟩ (by rfl)⟩

/-- C6: when attribute `A` is not cached and its resolution fails, the
call ends in the loud panic outcome carrying the class, instance and
attribute names — the failure is neither swallowed nor retried within the
call — and the returned cache state is exactly the input state: nothing is
recorded for `A`, in particular no "absent" marker. -/
theorem get_attribute_resolution_failure (fs : FS) (d : Driver) (A : String)
    (h1 : lookupAttr d.attributes A = none)
    (h2 : fs.pathExists (sysClassPath d.class_name d.name A) = false) :
    Driver.get_attribute fs d A =
      (Except.error ("Error while accessing " ++ d.class_name ++ ", " ++ d.name
          ++ ", " ++ A ++ " Internal error in the attribute map"), d) := by
  unfold Driver.get_attribute
  rw [h1]
  unfold Attribute.from_sys_class
  rw [h2]
  simp

/-- Witness for C6: on the filesystem where nothing resolves, `mode` fails
loudly and the cache stays empty. -/
theorem get_attribute_resolution_failure_witness :
    lookupAttr exDriver.attributes "mode" = none ∧
      emptyFS.pathExists (sysClassPath exDriver.class_name exDriver.name "mode") = false ∧
      Driver.get_attribute emptyFS exDriver "mode" =
        (Except.error ("Error while accessing " ++ exDriver.class_name ++ ", "
            ++ exDriver.name ++ ", " ++ "mode"
            ++ " Internal error in the attribute map"), exDriver) :=
  ⟨by rfl, by rfl,
    get_attribute_resolution_failure emptyFS exDriver "mode" (by rfl) (by rfl)⟩

/-! ### Properties of the discovery functions -/

/-- C3: `find_name_by_driver` applies the zero/one/many policy to the
match list: zero matches fail with `NotConnected` carrying the formatted
identifier list and no port, exactly one match succeeds with that unique
instance name, and more than one match fails with `MultipleMatches`
carrying all matched instance names. -/
theorem find_name_by_driver_policy (fs : FS) (class_name : String)
    (driver_ids : List String) (names : List String)
    (h : find_names_by_driver fs class_name driver_ids = Except.ok names) :
    (names = [] → find_name_by_driver fs class_name driver_ids
        = Except.error
            (Ev3Error.NotConnected (debugFormatStrList driver_ids) none)) ∧
      (∀ n, names = [n] → find_name_by_driver fs class_name driver_ids
        = Except.ok n) ∧
      (2 ≤ names.length → find_name_by_driver fs class_name driver_ids
        = Except.error
            (Ev3Error.MultipleMatches (debugFormatStrList driver_ids) names)) := by
  unfold find_name_by_driver
  rw [h]
  cases names with
  | nil =>
    exact ⟨fun _ => rfl, fun n hn => by simp at hn, fun h2 => by simp at h2⟩
  | cons a t =>
    cases t with
    | nil =>
      refine ⟨fun hc => by simp at hc, fun n hn => ?_, fun h2 => by simp at h2⟩
      injection hn with h1 h2
      rw [h1]
    | cons b t2 =>
      exact ⟨fun hc => by simp at hc, fun n hn => by simp at hn, fun _ => rfl⟩

/-- Witness for C3: a class directory with two instances whose driver name
both match fails with `MultipleMatches` listing exactly those two
instance names in directory-listing order. -/
theorem find_name_by_driver_policy_witness :
    find_names_by_driver exFS "lego-sensor" ["lego-ev3-color"]
        = Except.ok ["sensor0", "sensor1"] ∧
      find_name_by_driver exFS "lego-sensor" ["lego-ev3-color"]
        = Except.error (Ev3Error.MultipleMatches
            (debugFormatStrList ["lego-ev3-color"]) ["sensor0", "sensor1"]) :=
  ⟨by rfl,
    (find_name_by_driver_policy exFS "lego-sensor" ["lego-ev3-color"]
      ["sensor0", "sensor1"] (by rfl)).2.2 (by simp)⟩

theorem specCollectAux_eq_findNamesLoop (fs : FS) (class_name : String)
    (driver_ids : List String) (entries : List String) :
    ∀ acc, specCollectAux fs class_name driver_ids acc entries
      = (findNamesLoop fs class_name driver_ids entries).map
          (fun found => acc ++ found) := by
  induction entries with
  | nil => intro acc; simp [specCollectAux, findNamesLoop, Except.map]
  | cons a rest ih =>
    intro acc
    cases h : attrReadString fs class_name a "driver_name" with
    | none => simp [specCollectAux, findNamesLoop, h, Except.map]
    | some dn =>
      by_cases hd : driver_ids.any (fun n => dn = n)
      · cases hr : findNamesLoop fs class_name driver_ids rest with
        | error e =>
          simp [specCollectAux, findNamesLoop, h, hd, ih, hr, Except.map]
        | ok found =>
          simp [specCollectAux, findNamesLoop, h, hd, ih, hr, Except.map]
      · simp [specCollectAux, findNamesLoop, h, hd, ih]

theorem specCollectAux_nil_acc (fs : FS) (class_name : String)
    (driver_ids : List String) (entries : List String) :
    specCollectAux fs class_name driver_ids [] entries
      = findNamesLoop fs class_name driver_ids entries := by
  rw [specCollectAux_eq_findNamesLoop]
  cases findNamesLoop fs class_name driver_ids entries with
  | error e => rfl
  | ok found => simp [Except.map]

/-- C5: the source's one-match discovery refines the spec's: the list the
zero/one/many policy of `find_name_by_driver` is applied to is exactly the
list `find_names_by_driver` returns — proved by showing
`find_name_by_driver` coincides, on every filesystem and argument pair,
with a standalone definition that performs its own collect-all scan and
then applies the policy to that collection, with no further filtering. -/
theorem find_name_by_driver_refines (fs : FS) (class_name : String)
    (driver_ids : List String) :
    find_name_by_driver fs class_name driver_ids
      = find_instance_by_driver_spec fs class_name driver_ids := by
  unfold find_name_by_driver find_instance_by_driver_spec find_names_by_driver
  cases hd : fs.dirs (DRIVER_PATH ++ class_name) with
  | none => rfl
  | some entries => simp only [specCollectAux_nil_acc]

theorem findPortLoop_first_match (fs : FS) (class_name port_address : String)
    (driver_ids : List String) (entries : List String)
    (hok : ∀ name ∈ entries, portScanReadsOk fs class_name port_address name) :
    findPortLoop fs class_name port_address driver_ids entries
      = match entries.find?
          (portDriverMatchB fs class_name port_address driver_ids) with
        | some n => Except.ok n
        | none => Except.error (Ev3Error.NotConnected
            (debugFormatStrList driver_ids) (some port_address)) := by
  induction entries with
  | nil => rfl
  | cons a rest ih =>
    obtain ⟨hsome, hdrv⟩ := hok a (List.mem_cons_self a rest)
    have ihr := ih (fun n hn => hok n (List.mem_cons_of_mem a hn))
    cases h1 : attrReadString fs class_name a "address" with
    | none => rw [h1] at hsome; simp at hsome
    | some addr =>
      by_cases hc : strContainsB addr port_address = true
      · have hds := hdrv addr h1 hc
        cases h2 : attrReadString fs class_name a "driver_name" with
        | none => rw [h2] at hds; simp at hds
        | some dn =>
          by_cases hm : driver_ids.any (fun n => dn = n) = true
          · have hmatch : portDriverMatchB fs class_name port_address driver_ids a
                = true := by
              simp only [portDriverMatchB, h1, h2, hc, hm, Bool.and_true]
            rw [List.find?_cons_of_pos _ hmatch]
            simp [findPortLoop, h1, h2, hc, hm]
          · have hm2 : driver_ids.any (fun n => dn = n) = false := by
              cases hv : driver_ids.any (fun n => dn = n) with
              | false => rfl
              | true => exact absurd hv hm
            have hmatch : portDriverMatchB fs class_name port_address driver_ids a
                = false := by
              simp only [portDriverMatchB, h1, h2, hm2, Bool.and_false]
            rw [List.find?_cons_of_neg _ (by simp [hmatch])]
            rw [← ihr]
            simp [findPortLoop, h1, h2, hc, hm2]
      · have hc2 : strContainsB addr port_address = false := by
          cases hv : strContainsB addr port_address with
          | false => rfl
          | true => exact absurd hv hc
        have hmatch : portDriverMatchB fs class_name port_address driver_ids a
            = false := by
          simp only [portDriverMatchB, h1, hc2, Bool.false_and]
        rw [List.find?_cons_of_neg _ (by simp [hmatch])]
        rw [← ihr]
        simp [findPortLoop, h1, hc2]

/-- C4: when the class directory lists `entries` and every attribute read
the scan performs succeeds, `find_name_by_port_and_driver` returns the
first entry in directory-listing order whose `address` attribute value
contains the port address as a substring (containment, not equality) and
whose `driver_name` value is in the identifier list; when no entry
satisfies both conditions it fails with `NotConnected` carrying the
formatted identifier list and the port address. -/
theorem find_name_by_port_and_driver_first_match (fs : FS)
    (class_name port_address : String) (driver_ids : List String)
    (entries : List String)
    (hd : fs.dirs (DRIVER_PATH ++ class_name) = some entries)
    (hok : ∀ name ∈ entries, portScanReadsOk fs class_name port_address name) :
    find_name_by_port_and_driver fs class_name port_address driver_ids
      = match entries.find?
          (portDriverMatchB fs class_name port_address driver_ids) with
        | some n => Except.ok n
        | none => Except.error (Ev3Error.NotConnected
            (debugFormatStrList driver_ids) (some port_address)) := by
  unfold find_name_by_port_and_driver
  rw [hd]
  exact findPortLoop_first_match fs class_name port_address driver_ids entries hok

/-- Witness for C4: with port address `in2`, entry `sensor0` (address
`ev3-ports:in1`) is skipped and entry `sensor1` is returned because its
address `ev3-ports:in2` contains `in2` as a proper substring — containment,
not equality — and its driver name matches. -/
theorem find_name_by_port_and_driver_first_match_witness :
    exFS.dirs (DRIVER_PATH ++ "lego-sensor") = some ["sensor0", "sensor1"] ∧
      find_name_by_port_and_driver exFS "lego-sensor" "in2" ["lego-ev3-color"]
        = Except.ok "sensor1" :=
  ⟨by rfl,
    by
      have h := find_name_by_port_and_driver_first_match exFS "lego-sensor" "in2"
        ["lego-ev3-color"] ["sensor0", "sensor1"] (by rfl)
        (by
          intro name hn
          cases hn with
          | head => exact ⟨by rfl, fun a _ _ => by rfl⟩
          | tail _ hn2 =>
            cases hn2 with
            | head => exact ⟨by rfl, fun a _ _ => by rfl⟩
            | tail _ hn3 => cases hn3)
      rw [h]
      rfl⟩

/-! ### Properties of the color sensor binary-data path -/

/-- C7 evidence: the code contradicts the claimed error contract.  Parsing
an unknown format token does not produce a typed `Parse` error — it hits
the `panic!` arm of `FromStr for BinDataFormat`; and `get_bin_data` on a
sensor whose reported format is not `s16` does not produce a typed
`UnsupportedFormat` error — it panics as well. -/
theorem bin_data_format_panics_not_typed_error :
    BinDataFormat.from_str "s64" = Outcome.panicked "Invalid bin data format" ∧
      (ColorSensor.get_bin_data exFS exSensorU8).1
        = Outcome.panicked "get_bin_data is not supported for this color sensor" :=
  ⟨rfl, rfl⟩

/-- C8: with the shared cells reporting format `s16` and the raw read of
`bin_data` yielding exactly the 8 bytes `b0..b7`, `get_bin_data` returns
exactly the three values decoded from the first three 16-bit
little-endian words (the target platform's native order); the final two
bytes `b6`, `b7` beyond the consumed 6 do not occur in the result. -/
theorem get_bin_data_s16_decode (fs : FS) (s : ColorSensor) (n : Nat)
    (attr : Attribute) (d3 : Driver) (b0 b1 b2 b3 b4 b5 b6 b7 : Nat)
    (h1 : s.num_values = some n)
    (h2 : s.bin_format = some BinDataFormat.S16)
    (h3 : Driver.get_attribute fs s.driver "bin_data" = (Except.ok attr, d3))
    (h4 : fs.rawData attr.path = some [b0, b1, b2, b3, b4, b5, b6, b7]) :
    (ColorSensor.get_bin_data fs s).1
      = Outcome.ok (i16_from_ne_bytes b0 b1, i16_from_ne_bytes b2 b3,
          i16_from_ne_bytes b4 b5) := by
  unfold ColorSensor.get_bin_data
  simp only [h1, h2, h3, h4]
  rfl

/-- Witness for C8: on the concrete filesystem whose `bin_data` holds the
bytes 1..8, the decode returns the words (513, 1027, 1541). -/
theorem get_bin_data_s16_decode_witness :
    Driver.get_attribute exFS exSensorS16.driver "bin_data"
        = (Except.ok ⟨"/sys/class/lego-sensor/sensor0/bin_data"⟩, exDriverBinData) ∧
      exFS.rawData "/sys/class/lego-sensor/sensor0/bin_data"
        = some [1, 2, 3, 4, 5, 6, 7, 8] ∧
      (ColorSensor.get_bin_data exFS exSensorS16).1
        = Outcome.ok (i16_from_ne_bytes 1 2, i16_from_ne_bytes 3 4,
            i16_from_ne_bytes 5 6) :=
  ⟨by rfl, by rfl,
    get_bin_data_s16_decode exFS exSensorS16 3
      ⟨"/sys/class/lego-sensor/sensor0/bin_data"⟩ exDriverBinData
      1 2 3 4 5 6 7 8 (by rfl) (by rfl) (by rfl) (by rfl)⟩

/-- C9: with the shared cells reporting format `s16` but the raw byte
block shorter than 8 bytes, `get_bin_data` does not return a typed error:
the unconditional slice of the first 8 bytes is out of bounds and the
call ends in the panic outcome (Rust's slice-index panic), so the
operation is total only when the block holds at least 8 bytes. -/
theorem get_bin_data_short_block_panics (fs : FS) (s : ColorSensor) (n : Nat)
    (attr : Attribute) (d3 : Driver) (data : List Nat)
    (h1 : s.num_values = some n)
    (h2 : s.bin_format = some BinDataFormat.S16)
    (h3 : Driver.get_attribute fs s.driver "bin_data" = (Except.ok attr, d3))
    (h4 : fs.rawData attr.path = some data)
    (h5 : data.length < 8) :
    (ColorSensor.get_bin_data fs s).1
      = Outcome.panicked ("range end index 8 out of range for slice of length "
          ++ toString data.length) := by
  unfold ColorSensor.get_bin_data
  simp only [h1, h2, h3, h4]
  simp [h5]

/-- Witness for C9: a 3-byte raw block makes `get_bin_data` panic with the
slice-bounds message rather than return a typed error. -/
theorem get_bin_data_short_block_panics_witness :
    shortFS.rawData "/sys/class/lego-sensor/sensor0/bin_data" = some [9, 9, 9] ∧
      ([9, 9, 9] : List Nat).length < 8 ∧
      (ColorSensor.get_bin_data shortFS exSensorS16).1
        = Outcome.panicked ("range end index 8 out of range for slice of length "
            ++ toString ([9, 9, 9] : List Nat).length) :=
  ⟨by rfl, by decide,
    get_bin_data_short_block_panics shortFS exSensorS16 3
      ⟨"/sys/class/lego-sensor/sensor0/bin_data"⟩ exDriverBinData [9, 9, 9]
      (by rfl) (by rfl) (by rfl) (by rfl) (by decide)⟩

theorem get_attribute_fs_congr (fs fs' : FS) (d : Driver) (a : String)
    (he : ∀ p, fs.pathExists p = fs'.pathExists p) :
    Driver.get_attribute fs d a = Driver.get_attribute fs' d a := by
  unfold Driver.get_attribute Attribute.from_sys_class
  rw [he]

theorem get_bin_data_cached_cells_fs_independent (fs fs' : FS)
    (s : ColorSensor) (n : Nat) (f : BinDataFormat)
    (h1 : s.num_values = some n) (h2 : s.bin_format = some f)
    (he : ∀ p, fs.pathExists p = fs'.pathExists p)
    (hr : ∀ p, fs.rawData p = fs'.rawData p) :
    ColorSensor.get_bin_data fs s = ColorSensor.get_bin_data fs' s := by
  have hg : Driver.get_attribute fs s.driver "bin_data"
      = Driver.get_attribute fs' s.driver "bin_data" :=
    get_attribute_fs_congr fs fs' s.driver "bin_data" he
  unfold ColorSensor.get_bin_data
  simp only [h1, h2, hg, hr]

theorem get_bin_data_preserves_cells (fs : FS) (s : ColorSensor) (n : Nat)
    (f : BinDataFormat)
    (h1 : s.num_values = some n) (h2 : s.bin_format = some f) :
    (ColorSensor.get_bin_data fs s).2.num_values = some n ∧
      (ColorSensor.get_bin_data fs s).2.bin_format = some f := by
  unfold ColorSensor.get_bin_data
  simp only [h1, h2]
  by_cases hf : f = BinDataFormat.S16
  · rw [if_pos hf]
    rcases hga : Driver.get_attribute fs s.driver "bin_data" with ⟨r, d3⟩
    cases r with
    | error msg => simp [hga, h1, h2]
    | ok attr =>
      simp only [hga]
      cases hraw : fs.rawData attr.path with
      | none => simp [hraw, h1, h2]
      | some data =>
        simp only [hraw]
        by_cases hlen : data.length < 8
        · simp [hlen]
        · simp [hlen]
  · rw [if_neg hf]
    exact ⟨h1, h2⟩

/-- C10: once the shared cells of a `ColorSensor` (shared by all its
clones) hold `Some` values, `get_bin_data` never reads the `num_values`
or `bin_data_format` attributes again: its entire result is independent
of every textual attribute content (`fs.content` is unconstrained between
the two filesystems, so any device-side change to those attributes after
a mode change is unobservable), and the cells are never refreshed — the
call returns them unchanged. -/
theorem get_bin_data_reads_attributes_at_most_once (fs fs' : FS)
    (s : ColorSensor) (n : Nat) (f : BinDataFormat)
    (h1 : s.num_values = some n) (h2 : s.bin_format = some f)
    (he : ∀ p, fs.pathExists p = fs'.pathExists p)
    (hr : ∀ p, fs.rawData p = fs'.rawData p) :
    ColorSensor.get_bin_data fs s = ColorSensor.get_bin_data fs' s ∧
      (ColorSensor.get_bin_data fs s).2.num_values = some n ∧
      (ColorSensor.get_bin_data fs s).2.bin_format = some f :=
  ⟨get_bin_data_cached_cells_fs_independent fs fs' s n f h1 h2 he hr,
    (get_bin_data_preserves_cells fs s n f h1 h2).1,
    (get_bin_data_preserves_cells fs s n f h1 h2).2⟩

/-- Witness for C10: changing every textual attribute of the device (the
filesystem `exFSChanged` reports different `num_values` and
`bin_data_format` contents) does not change the result of `get_bin_data`
on a sensor with populated cells, and the cells stay populated. -/
theorem get_bin_data_reads_attributes_at_most_once_witness :
    exSensorS16.num_values = some 3 ∧
      exSensorS16.bin_format = some BinDataFormat.S16 ∧
      (ColorSensor.get_bin_data exFS exSensorS16
          = ColorSensor.get_bin_data exFSChanged exSensorS16 ∧
        (ColorSensor.get_bin_data exFS exSensorS16).2.num_values = some 3 ∧
        (ColorSensor.get_bin_data exFS exSensorS16).2.bin_format
          = some BinDataFormat.S16) :=
  ⟨by rfl, by rfl,
    get_bin_data_reads_attributes_at_most_once exFS exFSChanged exSensorS16 3
      BinDataFormat.S16 (by rfl) (by rfl) (fun p => rfl) (fun p => rfl)⟩

end Ev3
